import Mathlib

/-!
Verification of the mpy-tools build/deploy pipeline against its
natural-language specification.

The development shallowly embeds the Python sources:
- `src/deploy.py` (`ESP32DeployTool`): differential sync of a local file
  tree onto a MicroPython device, keyed by SHA-256 content hashes;
- `src/prepare.py` and `src/tools/prepare.py`: build orchestration and
  version-manifest collection;
- `src/tools/update_version.py`: semantic-version bump policy and
  manifest maintenance.

Python dicts whose values are hash/version strings are modelled by
`PyDict` (a finite key set together with a valuation); external effects
(filesystem and device mutations) are modelled as explicit effect
traces; outcomes of external calls (subprocess invocations, file reads)
are passed in as explicit parameters.
-/

namespace MpyTools

/-- A Python `dict[str, str]`: a finite set of keys together with a
valuation. Only the values at members of `keys` are meaningful. -/
structure PyDict where
  keys : Finset String
  val : String → String

/-- The empty dict `{}`. -/
def PyDict.empty : PyDict := ⟨∅, fun _ => ""⟩

/-- Python `d[k] = v`: upsert of a single binding. -/
def PyDict.insert (d : PyDict) (k v : String) : PyDict :=
  ⟨Insert.insert k d.keys, fun x => if x = k then v else d.val x⟩

/-- Membership test `k in d`. -/
def PyDict.mem (d : PyDict) (k : String) : Prop := k ∈ d.keys

instance (d : PyDict) (k : String) : Decidable (d.mem k) := by
  unfold PyDict.mem; infer_instance

/-! ### Diff engine: `ESP32DeployTool.calculate_diff` (src/deploy.py lines 205-222)

The Python method computes, from the local hash dict and the device hash
dict, the sets of new, updated and obsolete files, where the obsolete
set excludes the protected files held in `self.protected_files`. The
instance attribute `self.protected_files` is passed here as the explicit
argument `prot`. -/

/-- Embedding of `ESP32DeployTool.calculate_diff`:
`new = local - device`, `updated = {f in both | hashes differ}`,
`obsolete = (device - local) - protected`. -/
def calculate_diff (local_files device_files : PyDict) (prot : Finset String) :
    Finset String × Finset String × Finset String :=
  let local_set := local_files.keys
  let device_set := device_files.keys
  let new_files := local_set \ device_set
  let updated_files :=
    (local_set ∩ device_set).filter fun f => local_files.val f ≠ device_files.val f
  let obsolete_files := (device_set \ local_set) \ prot
  (new_files, updated_files, obsolete_files)

/-- The protected-file set fixed in `ESP32DeployTool.__init__`
(src/deploy.py line 36). -/
def protected_files : Finset String := {"webrepl_cfg.py"}

/-- The set the deploy step transfers: `files_to_copy = new_files | updated_files`
(src/deploy.py line 501). -/
def deploy_files_to_copy (local_files device_files : PyDict) (prot : Finset String) :
    Finset String :=
  (calculate_diff local_files device_files prot).1 ∪
    (calculate_diff local_files device_files prot).2.1

/-! ### Device prober: `ESP32DeployTool.get_device_files` (src/deploy.py lines 143-179)

The method first lists the files on the device; when the listing fails
it returns the empty dict. Otherwise it asks the device for each file's
SHA-256; a per-file probe failure records the empty string for that
file. The outcomes of the two external `mpremote` interactions are
passed in as a `ProbeResult`. -/

/-- Outcome of the external device probe: either the initial `fs ls`
failed, or it yielded a file list together with the per-file result of
`fs sha256sum` (`none` when that per-file call failed). -/
inductive ProbeResult
  | lsFail
  | lsOk (files : List String) (hashProbe : String → Option String)

/-- Embedding of `ESP32DeployTool.get_device_files`: empty dict on
listing failure; otherwise each listed file is recorded with its probed
hash, or with `""` when its hash probe failed. -/
def get_device_files : ProbeResult → PyDict
  | ProbeResult.lsFail => PyDict.empty
  | ProbeResult.lsOk files hashProbe =>
      files.foldl
        (fun d f =>
          match hashProbe f with
          | some h => d.insert f h
          | none => d.insert f "")
        PyDict.empty

end MpyTools

namespace MpyTools

/-- C1 helper: unfolded description of the three components. -/
lemma calculate_diff_eq (L R : PyDict) (P : Finset String) :
    calculate_diff L R P =
      (L.keys \ R.keys,
       (L.keys ∩ R.keys).filter fun f => L.val f ≠ R.val f,
       (R.keys \ L.keys) \ P) := rfl

end MpyTools

/-- C1: for every finite local hash map L, remote hash map R and protected set
P, `calculate_diff` returns three pairwise-disjoint sets where the new files
are the keys of L absent from R, the updated files are the keys present in
both whose hashes differ, the obsolete files are the keys of R absent from L
minus P, and the obsolete set never meets P, even when a protected file is
absent locally. -/
theorem claim_C1_calculate_diff_partition
    (L R : MpyTools.PyDict) (P : Finset String) :
    let d := MpyTools.calculate_diff L R P
    Disjoint d.1 d.2.1 ∧ Disjoint d.1 d.2.2 ∧ Disjoint d.2.1 d.2.2 ∧
    (∀ f, f ∈ d.1 ↔ f ∈ L.keys ∧ f ∉ R.keys) ∧
    (∀ f, f ∈ d.2.1 ↔ (f ∈ L.keys ∧ f ∈ R.keys) ∧ L.val f ≠ R.val f) ∧
    (∀ f, f ∈ d.2.2 ↔ (f ∈ R.keys ∧ f ∉ L.keys) ∧ f ∉ P) ∧
    d.2.2 ∩ P = ∅ := by
  rw [MpyTools.calculate_diff_eq]
  refine ⟨?_, ?_, ?_, ?_, ?_, ?_, ?_⟩
  · rw [Finset.disjoint_left]
    intro f hf hg
    rcases Finset.mem_sdiff.mp hf with ⟨_, hnR⟩
    rcases Finset.mem_filter.mp hg with ⟨hfi, _⟩
    exact hnR (Finset.mem_inter.mp hfi).2
  · rw [Finset.disjoint_left]
    intro f hf hg
    rcases Finset.mem_sdiff.mp hf with ⟨hL, _⟩
    rcases Finset.mem_sdiff.mp (Finset.mem_sdiff.mp hg).1 with ⟨_, hnL⟩
    exact hnL hL
  · rw [Finset.disjoint_left]
    intro f hf hg
    rcases Finset.mem_filter.mp hf with ⟨hfi, _⟩
    rcases Finset.mem_sdiff.mp (Finset.mem_sdiff.mp hg).1 with ⟨_, hnL⟩
    exact hnL (Finset.mem_inter.mp hfi).1
  · intro f; simp [Finset.mem_sdiff]
  · intro f; simp [Finset.mem_filter, Finset.mem_inter, and_assoc]
  · intro f; simp [Finset.mem_sdiff]
  · rw [Finset.eq_empty_iff_forall_not_mem]
    intro f hf
    rcases Finset.mem_inter.mp hf with ⟨hmem, hP⟩
    exact (Finset.mem_sdiff.mp hmem).2 hP

/-- C4: diffing identical local and remote maps, with no protected member
present locally, classifies no file as new, updated or obsolete. -/
theorem claim_C4_diff_idempotent
    (L : MpyTools.PyDict) (P : Finset String) (h : Disjoint L.keys P) :
    MpyTools.calculate_diff L L P = (∅, ∅, ∅) := by
  rw [MpyTools.calculate_diff_eq]
  refine Prod.ext ?_ (Prod.ext ?_ ?_)
  · simp
  · simp
  · simp

/-- C4 witness: a concrete two-file local map with a disjoint protected set. -/
theorem claim_C4_diff_idempotent_witness :
    MpyTools.calculate_diff
      ⟨{"a.py", "b.py"}, fun f => if f = "a.py" then "h1" else "h2"⟩
      ⟨{"a.py", "b.py"}, fun f => if f = "a.py" then "h1" else "h2"⟩
      {"webrepl_cfg.py"} = (∅, ∅, ∅) :=
  claim_C4_diff_idempotent
    ⟨{"a.py", "b.py"}, fun f => if f = "a.py" then "h1" else "h2"⟩
    {"webrepl_cfg.py"} (by decide)

/-- C5: against an empty remote hash map, and in particular against the empty
map produced by `get_device_files` when the device listing fails, every local
file is classified as new and nothing is updated or obsolete. -/
theorem claim_C5_empty_remote_full_push
    (L : MpyTools.PyDict) (P : Finset String) :
    MpyTools.calculate_diff L (MpyTools.get_device_files MpyTools.ProbeResult.lsFail) P
        = (L.keys, ∅, ∅) ∧
    MpyTools.calculate_diff L MpyTools.PyDict.empty P = (L.keys, ∅, ∅) := by
  constructor <;>
  · rw [MpyTools.calculate_diff_eq]
    refine Prod.ext ?_ (Prod.ext ?_ ?_) <;>
      simp [MpyTools.PyDict.empty, MpyTools.get_device_files]

/-- C9: a protected file present on both sides with differing hashes is
classified as updated (not obsolete), and the deploy step includes it in the
set of files transferred to the device. -/
theorem claim_C9_protected_still_overwritten
    (L R : MpyTools.PyDict) (P : Finset String) (f : String)
    (hP : f ∈ P) (hL : f ∈ L.keys) (hR : f ∈ R.keys)
    (hdiff : L.val f ≠ R.val f) :
    f ∈ (MpyTools.calculate_diff L R P).2.1 ∧
    f ∉ (MpyTools.calculate_diff L R P).2.2 ∧
    f ∈ MpyTools.deploy_files_to_copy L R P := by
  rw [MpyTools.deploy_files_to_copy, MpyTools.calculate_diff_eq]
  refine ⟨?_, ?_, ?_⟩
  · exact Finset.mem_filter.mpr ⟨Finset.mem_inter.mpr ⟨hL, hR⟩, hdiff⟩
  · intro hmem
    exact (Finset.mem_sdiff.mp (Finset.mem_sdiff.mp hmem).1).2 hL
  · exact Finset.mem_union_right _
      (Finset.mem_filter.mpr ⟨Finset.mem_inter.mpr ⟨hL, hR⟩, hdiff⟩)

/-- C9 witness: `webrepl_cfg.py` protected, present on both sides with
different hashes, lands in the updated set and in the transfer set. -/
theorem claim_C9_protected_still_overwritten_witness :
    "webrepl_cfg.py" ∈
        (MpyTools.calculate_diff
          ⟨{"webrepl_cfg.py"}, fun _ => "h1"⟩
          ⟨{"webrepl_cfg.py"}, fun _ => "h2"⟩
          MpyTools.protected_files).2.1 ∧
    "webrepl_cfg.py" ∉
        (MpyTools.calculate_diff
          ⟨{"webrepl_cfg.py"}, fun _ => "h1"⟩
          ⟨{"webrepl_cfg.py"}, fun _ => "h2"⟩
          MpyTools.protected_files).2.2 ∧
    "webrepl_cfg.py" ∈ MpyTools.deploy_files_to_copy
          ⟨{"webrepl_cfg.py"}, fun _ => "h1"⟩
          ⟨{"webrepl_cfg.py"}, fun _ => "h2"⟩
          MpyTools.protected_files :=
  claim_C9_protected_still_overwritten
    ⟨{"webrepl_cfg.py"}, fun _ => "h1"⟩
    ⟨{"webrepl_cfg.py"}, fun _ => "h2"⟩
    MpyTools.protected_files "webrepl_cfg.py"
    (by decide) (by decide) (by decide) (by decide)

namespace MpyTools

/-! ### Version bump policy: `increment_version` (src/tools/update_version.py lines 36-57)

The Python function splits the version string on `'.'`; when there are
exactly three components it parses each with `int(...)`, applies the
policy (`patch`: third += 1; `major`: first += 1, others reset to 0;
anything else, i.e. `minor`: second += 1, third kept), and re-renders
with an f-string. A wrong component count, or a `ValueError` from
`int(...)`, returns the input unchanged. `str.split` and `int` are
modelled directly on character lists so the kernel can evaluate them. -/

/-- Whitespace characters stripped by Python `int(...)` (ASCII fragment). -/
def pyIsSpace (c : Char) : Bool :=
  c = ' ' || c = '\t' || c = '\n' || c = '\r' || c = '\x0b' || c = '\x0c'

/-- Strip leading and trailing whitespace, as `int(...)` does. -/
def stripWs (cs : List Char) : List Char :=
  ((cs.dropWhile pyIsSpace).reverse.dropWhile pyIsSpace).reverse

/-- Parse a nonempty run of decimal digits in which single underscores may
separate digits, accumulating the value; mirrors the digit grammar of
Python `int(...)`. -/
def pyDigitsAux (acc : Nat) : List Char → Option Nat
  | [] => some acc
  | '_' :: c :: cs =>
      if c.isDigit then pyDigitsAux (acc * 10 + (c.toNat - '0'.toNat)) cs else none
  | ['_'] => none
  | c :: cs =>
      if c.isDigit then pyDigitsAux (acc * 10 + (c.toNat - '0'.toNat)) cs else none

/-- Parse the unsigned digit part: it must start with a digit. -/
def pyUnsigned (cs : List Char) : Option Nat :=
  match cs with
  | [] => none
  | c :: rest =>
      if c.isDigit then pyDigitsAux (c.toNat - '0'.toNat) rest else none

/-- Model of Python `int(s)` for decimal strings: optional surrounding
whitespace, optional sign, digits with grouping underscores; `none`
models the `ValueError` raised on anything else. -/
def pyInt (cs : List Char) : Option Int :=
  match stripWs cs with
  | '+' :: rest => (pyUnsigned rest).map fun n => (n : Int)
  | '-' :: rest => (pyUnsigned rest).map fun n => -(n : Int)
  | other => (pyUnsigned other).map fun n => (n : Int)

/-- Model of Python `str.split('.')`: splits on every dot, keeping empty
components, so the empty string yields one empty component. -/
def splitOnDot : List Char → List (List Char)
  | [] => [[]]
  | c :: cs =>
      let r := splitOnDot cs
      if c = '.' then [] :: r
      else
        match r with
        | [] => [[c]]
        | g :: gs => (c :: g) :: gs

/-- Render of the f-string `f"{major}.{minor}.{patch}"`. -/
def render_version (major minor patch : Int) : String :=
  toString major ++ "." ++ toString minor ++ "." ++ toString patch

/-- The parsing phase of `increment_version`: the split on `'.'` must give
exactly three components and each must be accepted by `int(...)`; any
other shape is the fall-soft path (`none`). -/
def parse_version (s : String) : Option (Int × Int × Int) :=
  match splitOnDot s.data with
  | [p0, p1, p2] =>
      match pyInt p0, pyInt p1, pyInt p2 with
      | some a, some b, some c => some (a, b, c)
      | _, _, _ => none
  | _ => none

/-- Embedding of `increment_version`: three parseable dot-separated
components are bumped according to the policy; everything else is
returned unchanged. -/
def increment_version (version_str : String) (policy : String) : String :=
  match parse_version version_str with
  | some (major, minor, patch) =>
      if policy = "patch" then render_version major minor (patch + 1)
      else if policy = "major" then render_version (major + 1) 0 0
      else render_version major (minor + 1) patch
  | none => version_str

end MpyTools

/-- C2: on a version string with three numeric dot-separated components,
`increment_version` with policy `patch` adds 1 to the third component, with
`major` adds 1 to the first and resets the other two to 0, and with `minor`
adds 1 to the second while leaving the third unchanged; the four literal
cases from the spec hold; and a string that is not three numeric
dot-separated components (such as `weird-tag`) is returned unchanged. -/
theorem claim_C2_increment_version
    (s : String) (a b c : Int) (h : MpyTools.parse_version s = some (a, b, c)) :
    (MpyTools.increment_version s "patch" = MpyTools.render_version a b (c + 1) ∧
     MpyTools.increment_version s "major" = MpyTools.render_version (a + 1) 0 0 ∧
     MpyTools.increment_version s "minor" = MpyTools.render_version a (b + 1) c) ∧
    (∀ t p, MpyTools.parse_version t = none → MpyTools.increment_version t p = t) ∧
    MpyTools.increment_version "1.2.3" "patch" = "1.2.4" ∧
    MpyTools.increment_version "1.2.3" "minor" = "1.3.3" ∧
    MpyTools.increment_version "1.2.3" "major" = "2.0.0" ∧
    MpyTools.increment_version "1.0.0" "minor" = "1.1.0" ∧
    MpyTools.increment_version "weird-tag" "minor" = "weird-tag" := by
  refine ⟨?_, ?_, by decide, by decide, by decide, by decide, by decide⟩
  · unfold MpyTools.increment_version
    rw [h]
    exact ⟨rfl, rfl, rfl⟩
  · intro t p ht
    unfold MpyTools.increment_version
    rw [ht]

/-- C2 witness: the parse precondition and the bump equalities hold at the
concrete version string 1.2.3. -/
theorem claim_C2_increment_version_witness :
    MpyTools.increment_version "1.2.3" "patch" = MpyTools.render_version 1 2 4 ∧
    MpyTools.increment_version "1.2.3" "major" = MpyTools.render_version 2 0 0 ∧
    MpyTools.increment_version "1.2.3" "minor" = MpyTools.render_version 1 3 3 :=
  ⟨(claim_C2_increment_version "1.2.3" 1 2 3 (by decide)).1.1,
   (claim_C2_increment_version "1.2.3" 1 2 3 (by decide)).1.2.1,
   (claim_C2_increment_version "1.2.3" 1 2 3 (by decide)).1.2.2⟩

namespace MpyTools

/-- The per-file step of `get_device_files`: record the probed hash, or the
empty string when the per-file probe failed. -/
def probeStep (hashProbe : String → Option String) (d : PyDict) (f : String) : PyDict :=
  match hashProbe f with
  | some h => d.insert f h
  | none => d.insert f ""

lemma get_device_files_lsOk (files : List String) (hp : String → Option String) :
    get_device_files (ProbeResult.lsOk files hp) =
      files.foldl (probeStep hp) PyDict.empty := rfl

lemma probeStep_eq (hp : String → Option String) (d : PyDict) (f : String) :
    probeStep hp d f = d.insert f ((hp f).getD "") := by
  unfold probeStep
  cases hp f <;> rfl

/-- Folding files not containing `f` leaves the membership and value of `f`
as in the accumulator. -/
lemma foldl_probeStep_not_mem (hp : String → Option String) (f : String) :
    ∀ (files : List String) (acc : PyDict), f ∉ files →
      (f ∈ acc.keys → f ∈ (files.foldl (probeStep hp) acc).keys) ∧
      (files.foldl (probeStep hp) acc).val f = acc.val f := by
  intro files
  induction files with
  | nil => intro acc _; exact ⟨fun h => h, rfl⟩
  | cons g gs ih =>
      intro acc hf
      have hne : f ≠ g := fun h => hf (h ▸ List.mem_cons_self g gs)
      have htail : f ∉ gs := fun h => hf (List.mem_cons_of_mem g h)
      have step : (acc.insert g ((hp g).getD "")).val f = acc.val f := by
        unfold PyDict.insert
        simp [hne]
      rcases ih (probeStep hp acc g) htail with ⟨hmem, hval⟩
      refine ⟨fun hin => hmem ?_, ?_⟩
      · rw [probeStep_eq]
        unfold PyDict.insert
        exact Finset.mem_insert_of_mem hin
      · rw [List.foldl_cons, hval, probeStep_eq, step]

/-- Every listed file ends up in the probed dict, with value the probed hash
or the empty string on probe failure. -/
lemma foldl_probeStep_mem (hp : String → Option String) (f : String) :
    ∀ (files : List String) (acc : PyDict), f ∈ files →
      f ∈ (files.foldl (probeStep hp) acc).keys ∧
      (files.foldl (probeStep hp) acc).val f = (hp f).getD "" := by
  intro files
  induction files with
  | nil => intro acc h; exact absurd h (List.not_mem_nil f)
  | cons g gs ih =>
      intro acc hf
      by_cases htail : f ∈ gs
      · exact ih (probeStep hp acc g) htail
      · have hfg : f = g := by
          rcases List.mem_cons.mp hf with h | h
          · exact h
          · exact absurd h htail
        subst hfg
        rcases foldl_probeStep_not_mem hp f gs (probeStep hp acc f) htail with ⟨hmem, hval⟩
        constructor
        · apply hmem
          rw [probeStep_eq]
          unfold PyDict.insert
          exact Finset.mem_insert_self f _
        · rw [List.foldl_cons, hval, probeStep_eq]
          unfold PyDict.insert
          simp

end MpyTools

/-- C10: a remote file whose per-file hash probe fails is recorded by
`get_device_files` with the empty string as its hash (the entry is not
dropped); in the subsequent diff against a local map holding that file with a
non-empty hash, the file is classified as updated, and it is never classified
as new or obsolete. -/
theorem claim_C10_failed_hash_probe_updates
    (files : List String) (hp : String → Option String) (f : String)
    (hf : f ∈ files) (hfail : hp f = none)
    (L : MpyTools.PyDict) (P : Finset String) (hL : f ∈ L.keys) (hne : L.val f ≠ "") :
    let R := MpyTools.get_device_files (MpyTools.ProbeResult.lsOk files hp)
    f ∈ R.keys ∧ R.val f = "" ∧
    f ∈ (MpyTools.calculate_diff L R P).2.1 ∧
    f ∉ (MpyTools.calculate_diff L R P).1 ∧
    f ∉ (MpyTools.calculate_diff L R P).2.2 := by
  intro R
  have hprobe := MpyTools.foldl_probeStep_mem hp f files MpyTools.PyDict.empty hf
  have hRmem : f ∈ R.keys := hprobe.1
  have hRval : R.val f = "" := by
    have : R.val f = (hp f).getD "" := hprobe.2
    rw [this, hfail]; rfl
  refine ⟨hRmem, hRval, ?_, ?_, ?_⟩
  · rw [MpyTools.calculate_diff_eq]
    exact Finset.mem_filter.mpr ⟨Finset.mem_inter.mpr ⟨hL, hRmem⟩, by rw [hRval]; exact hne⟩
  · rw [MpyTools.calculate_diff_eq]
    intro hmem
    exact (Finset.mem_sdiff.mp hmem).2 hRmem
  · rw [MpyTools.calculate_diff_eq]
    intro hmem
    exact (Finset.mem_sdiff.mp (Finset.mem_sdiff.mp hmem).1).2 hL

/-- C10 witness: one remote file `a.py` with a failed hash probe, locally
present with hash `h1`, is classified as updated only. -/
theorem claim_C10_failed_hash_probe_updates_witness :
    let R := MpyTools.get_device_files
      (MpyTools.ProbeResult.lsOk ["a.py"] fun _ => none)
    let L : MpyTools.PyDict := ⟨{"a.py"}, fun _ => "h1"⟩
    "a.py" ∈ R.keys ∧ R.val "a.py" = "" ∧
    "a.py" ∈ (MpyTools.calculate_diff L R ∅).2.1 ∧
    "a.py" ∉ (MpyTools.calculate_diff L R ∅).1 ∧
    "a.py" ∉ (MpyTools.calculate_diff L R ∅).2.2 :=
  claim_C10_failed_hash_probe_updates ["a.py"] (fun _ => none) "a.py"
    (List.mem_singleton.mpr rfl) rfl
    ⟨{"a.py"}, fun _ => "h1"⟩ ∅ (by decide) (by decide)

namespace MpyTools

/-! ### Version extraction (src/prepare.py lines 79-103, src/tools/update_version.py lines 91-109)

`collect_module_versions` searches the module text with two regexes, in
order: a plain `__version__ = "x"` assignment first, then the
`__version__ = const("x")` form; a file with neither gets version
`"unknown"`. `get_current_version_from_file` in the update tool uses one
combined regex with an optional `const(` part, and returns `"0.1.0"`
when nothing matches. The regexes are deterministic on their input (the
character classes exclude the closing delimiters), so they are embedded
as character-list matchers with leftmost-match search. -/

/-- Match a literal character list at the head of the input, returning the
remainder on success. -/
def matchLit : List Char → List Char → Option (List Char)
  | [], cs => some cs
  | _ :: _, [] => none
  | l :: ls, c :: cs => if c = l then matchLit ls cs else none

/-- The quote characters accepted by the patterns. -/
def isQuote (c : Char) : Bool := c = '"' || c = '\''

/-- Match a quoted version value at the head: an opening quote, one or more
non-quote characters (the capture), and a closing quote of either kind.
Returns the capture and the remainder after the closing quote. -/
def extractQuoted (cs : List Char) : Option (String × List Char) :=
  match cs with
  | c :: rest =>
      if isQuote c then
        let v := rest.takeWhile fun x => !isQuote x
        let rest2 := rest.dropWhile fun x => !isQuote x
        match rest2 with
        | c2 :: rest3 => if v ≠ [] ∧ isQuote c2 then some (String.mk v, rest3) else none
        | [] => none
      else none
  | [] => none

/-- The plain pattern of `collect_module_versions`:
double-underscore version, `\s*`, `=`, `\s*`, quoted value. -/
def tryPlainAt (cs : List Char) : Option String := do
  let cs1 ← matchLit "__version__".data cs
  match cs1.dropWhile pyIsSpace with
  | '=' :: cs3 => (extractQuoted (cs3.dropWhile pyIsSpace)).map fun p => p.1
  | _ => none

/-- The const pattern of `collect_module_versions`: after the `=` comes
`const`, `\s*`, `(`, `\s*`, the quoted value, `\s*`, `)`. -/
def tryConstAt (cs : List Char) : Option String := do
  let cs1 ← matchLit "__version__".data cs
  match cs1.dropWhile pyIsSpace with
  | '=' :: cs3 =>
      let cs4 ← matchLit "const".data (cs3.dropWhile pyIsSpace)
      match cs4.dropWhile pyIsSpace with
      | '(' :: cs5 =>
          let (v, rest) ← extractQuoted (cs5.dropWhile pyIsSpace)
          match rest.dropWhile pyIsSpace with
          | ')' :: _ => some v
          | _ => none
      | _ => none
  | _ => none

/-- The combined pattern of `get_current_version_from_file`: an optional
`const\s*\(` directly before the opening quote (no whitespace between `(`
and the quote), and an optional trailing `\s*\)` that does not constrain
the capture. When `const\s*\(` is present the quote must follow it; the
regex's backtracking fallback (retrying without the optional group)
necessarily fails there because the input then starts with `c`. -/
def tryCombinedAt (cs : List Char) : Option String := do
  let cs1 ← matchLit "__version__".data cs
  match cs1.dropWhile pyIsSpace with
  | '=' :: cs3 =>
      let cs4 := cs3.dropWhile pyIsSpace
      match matchLit "const".data cs4 with
      | some cs5 =>
          match cs5.dropWhile pyIsSpace with
          | '(' :: cs6 => (extractQuoted cs6).map fun p => p.1
          | _ => none
      | none => (extractQuoted cs4).map fun p => p.1
  | _ => none

/-- Leftmost search of a pattern matcher over the text, as `re.search`. -/
def searchVersionAux (f : List Char → Option String) : List Char → Option String
  | [] => none
  | c :: cs =>
      match f (c :: cs) with
      | some v => some v
      | none => searchVersionAux f cs

/-- Embedding of the version-extraction part of `collect_module_versions`
(src/prepare.py lines 79-97): the plain pattern is searched over the whole
text first, then the const pattern; no match yields `"unknown"`. -/
def collect_extract_version (content : String) : String :=
  match searchVersionAux tryPlainAt content.data with
  | some v => v
  | none =>
      match searchVersionAux tryConstAt content.data with
      | some v => v
      | none => "unknown"

/-- Embedding of `get_current_version_from_file` (src/tools/update_version.py
lines 91-109), taking the file text: one combined search; no match yields
`"0.1.0"`. -/
def get_current_version_from_file (content : String) : String :=
  match searchVersionAux tryCombinedAt content.data with
  | some v => v
  | none => "0.1.0"

/-- Whether the literal marker of all three patterns occurs in the text. -/
def containsVersionMarker : List Char → Bool
  | [] => false
  | c :: cs => (matchLit "__version__".data (c :: cs)).isSome || containsVersionMarker cs

lemma searchVersionAux_none_of_no_marker
    (f : List Char → Option String)
    (hf : ∀ cs, matchLit "__version__".data cs = none → f cs = none) :
    ∀ cs, containsVersionMarker cs = false → searchVersionAux f cs = none := by
  intro cs
  induction cs with
  | nil => intro _; rfl
  | cons c cs ih =>
      intro h
      unfold containsVersionMarker at h
      rcases hm : matchLit "__version__".data (c :: cs) with _ | rest
      · unfold searchVersionAux
        rw [hf (c :: cs) hm]
        exact ih (by simpa [hm] using h)
      · rw [hm] at h
        simp at h

lemma tryPlainAt_none_of_no_lit (cs : List Char)
    (h : matchLit "__version__".data cs = none) : tryPlainAt cs = none := by
  unfold tryPlainAt
  rw [h]
  rfl

lemma tryConstAt_none_of_no_lit (cs : List Char)
    (h : matchLit "__version__".data cs = none) : tryConstAt cs = none := by
  unfold tryConstAt
  rw [h]
  rfl

lemma tryCombinedAt_none_of_no_lit (cs : List Char)
    (h : matchLit "__version__".data cs = none) : tryCombinedAt cs = none := by
  unfold tryCombinedAt
  rw [h]
  rfl

end MpyTools

/-- C8 counterexample: the bump tool's extractor returns `0.1.0`, not
`unknown`, on a source text with no version declaration, refuting the claim
that absence always yields `unknown`. -/
theorem claim_C8_counterexample :
    MpyTools.get_current_version_from_file "x = 1" = "0.1.0" ∧
    MpyTools.get_current_version_from_file "x = 1" ≠ "unknown" := by
  constructor
  · decide
  · decide

/-- C8 (amended): both extractors scan for an assignment-style version
declaration, plain or wrapped in `const(...)`, with the leftmost match of the
searched pattern winning, and neither can fail; but on a text with no
declaration the collector yields `"unknown"` while the bump tool's extractor
yields `"0.1.0"`. -/
theorem claim_C8_version_extraction
    (content : String)
    (h : MpyTools.containsVersionMarker content.data = false) :
    (MpyTools.collect_extract_version content = "unknown" ∧
     MpyTools.get_current_version_from_file content = "0.1.0") ∧
    MpyTools.collect_extract_version "x = 1\n__version__ = \"2.5.1\"\nrest" = "2.5.1" ∧
    MpyTools.collect_extract_version
      "from micropython import const\n__version__ = const(\"0.4.2\")\n" = "0.4.2" ∧
    MpyTools.collect_extract_version
      "__version__ = \"1.0.0\"\n__version__ = \"9.9.9\"" = "1.0.0" ∧
    MpyTools.get_current_version_from_file "__version__ = const(\"1.7.0\")" = "1.7.0" ∧
    MpyTools.get_current_version_from_file "__version__ = '3.1.4'" = "3.1.4" := by
  refine ⟨⟨?_, ?_⟩, by decide, by decide, by decide, by decide, by decide⟩
  · unfold MpyTools.collect_extract_version
    rw [MpyTools.searchVersionAux_none_of_no_marker MpyTools.tryPlainAt
          MpyTools.tryPlainAt_none_of_no_lit content.data h,
        MpyTools.searchVersionAux_none_of_no_marker MpyTools.tryConstAt
          MpyTools.tryConstAt_none_of_no_lit content.data h]
  · unfold MpyTools.get_current_version_from_file
    rw [MpyTools.searchVersionAux_none_of_no_marker MpyTools.tryCombinedAt
          MpyTools.tryCombinedAt_none_of_no_lit content.data h]

/-- C8 witness: the amended behaviour at a concrete declaration-free text. -/
theorem claim_C8_version_extraction_witness :
    MpyTools.collect_extract_version "print(1)" = "unknown" ∧
    MpyTools.get_current_version_from_file "print(1)" = "0.1.0" :=
  (claim_C8_version_extraction "print(1)" (by decide)).1

namespace MpyTools

/-! ### Manifest collection: `collect_module_versions` (src/prepare.py lines 39-104)

The function iterates over `module_list ++ copy_only_list`. Per file it
either skips (unresolvable), or reads the bytes and records the SHA-256
hash and the extracted version; a read failure, or a UTF-8 decode
failure after the hash was stored, ends with `"error"` in both maps.
The filesystem outcome per file is passed in via `CollectOutcome`; the
hash value of read bytes is the outcome's payload (the hash function
itself is an external digest). The manifest is the pair
(versions, hashes), mirroring `version_data["modules"]` and
`version_data["SHA-256"]`. -/

/-- Per-file filesystem outcome for `collect_module_versions`. -/
inductive CollectOutcome
  | notFound
  | readFail
  | decodeFail (hash : String)
  | ok (hash : String) (content : String)

/-- One iteration of the collection loop. `decodeFail` stores the hash first
and then overwrites both entries with `"error"`, exactly as the source's
exception handler does after line 74 has run. -/
def collectStep (st : PyDict × PyDict) (filename : String) (oc : CollectOutcome) :
    PyDict × PyDict :=
  match oc with
  | CollectOutcome.notFound => st
  | CollectOutcome.readFail => (st.1.insert filename "error", st.2.insert filename "error")
  | CollectOutcome.decodeFail h =>
      (st.1.insert filename "error", (st.2.insert filename h).insert filename "error")
  | CollectOutcome.ok h content =>
      (st.1.insert filename (collect_extract_version content), st.2.insert filename h)

/-- Embedding of `collect_module_versions`: fold of `collectStep` over
`module_list ++ copy_only_list`, starting from two empty dicts. -/
def collect_module_versions (module_list copy_only_list : List String)
    (resolve : String → CollectOutcome) : PyDict × PyDict :=
  (module_list ++ copy_only_list).foldl
    (fun st filename => collectStep st filename (resolve filename)) (PyDict.empty, PyDict.empty)

/-! ### Manifest update: the per-file body of `main` in src/tools/update_version.py (lines 181-213)

For each scanned file: a hash failure skips the file; a file absent from
the `SHA-256` map is recorded as new with its extracted in-file version;
a file whose recorded hash differs is bumped, and the two maps are
updated with the new version and the hash recomputed after the in-file
rewrite when `update_file_version` succeeded, while on failure only the
freshly computed content hash is stored; an unchanged hash leaves the
state alone. The filesystem outcomes are passed in via `ScanOutcome`. -/

/-- Per-file filesystem outcome for the update loop: `hashFail` models
`calculate_sha256` returning `None`; otherwise the file's current hash and
text are given, with the success flag of `update_file_version` and the hash
recomputed after a successful rewrite. -/
inductive ScanOutcome
  | hashFail
  | hashed (current_hash : String) (content : String)
      (update_ok : Bool) (updated_hash : String)

/-- One iteration of the update loop over (modules, SHA-256). -/
def update_version_step (bump : String) (st : PyDict × PyDict) (fp : String)
    (sc : ScanOutcome) : PyDict × PyDict :=
  match sc with
  | ScanOutcome.hashFail => st
  | ScanOutcome.hashed current_hash content update_ok updated_hash =>
      if fp ∉ st.2.keys then
        (st.1.insert fp (get_current_version_from_file content),
         st.2.insert fp current_hash)
      else if st.2.val fp ≠ current_hash then
        let old_version := if fp ∈ st.1.keys then st.1.val fp else "0.1.0"
        let new_version := increment_version old_version bump
        if update_ok then (st.1.insert fp new_version, st.2.insert fp updated_hash)
        else (st.1, st.2.insert fp current_hash)
      else st

/-- The whole scan loop of `main` over the current files. -/
def update_version_main_loop (bump : String) (current_files : List String)
    (scan : String → ScanOutcome) (init : PyDict × PyDict) : PyDict × PyDict :=
  current_files.foldl (fun st fp => update_version_step bump st fp (scan fp)) init

/-! ### Output-side manifest rebuild: `create_device_version_json`
(src/prepare.py lines 301-368, src/tools/prepare.py lines 326-394)

The function rescans every file of the output tree, hashing each and
carrying the version over from the source manifest under the name with
`.mpy` replaced by `.py`; a read failure stores `"error"` in both maps. -/

/-- Python `filename.replace(".mpy", ".py")`: leftmost, non-overlapping. -/
def replaceMpy : List Char → List Char
  | '.' :: 'm' :: 'p' :: 'y' :: rest => '.' :: 'p' :: 'y' :: replaceMpy rest
  | c :: cs => c :: replaceMpy cs
  | [] => []

/-- Per-file outcome of the output-tree scan. -/
inductive RebuildOutcome
  | ok (hash : String)
  | readFail

/-- One iteration of the rebuild loop: on success record the hash and the
carried-over version (or `"unknown"`); on failure record `"error"` twice. -/
def rebuildStep (orig_modules : PyDict) (st : PyDict × PyDict) (filename : String)
    (oc : RebuildOutcome) : PyDict × PyDict :=
  match oc with
  | RebuildOutcome.ok h =>
      let original_name := String.mk (replaceMpy filename.data)
      (st.1.insert filename
        (if original_name ∈ orig_modules.keys then orig_modules.val original_name
         else "unknown"),
       st.2.insert filename h)
  | RebuildOutcome.readFail =>
      (st.1.insert filename "error", st.2.insert filename "error")

/-- Embedding of the manifest-rebuilding part of `create_device_version_json`:
fold of `rebuildStep` over the files found in the output tree, starting from
two empty dicts. -/
def create_device_version_json (orig_modules : PyDict) (files : List String)
    (scan : String → RebuildOutcome) : PyDict × PyDict :=
  files.foldl (fun st filename => rebuildStep orig_modules st filename (scan filename))
    (PyDict.empty, PyDict.empty)

lemma collectStep_keys (st : PyDict × PyDict) (filename : String) (oc : CollectOutcome)
    (h : st.1.keys = st.2.keys) :
    (collectStep st filename oc).1.keys = (collectStep st filename oc).2.keys := by
  cases oc <;> simp [collectStep, PyDict.insert, h]

lemma update_version_step_keys (bump : String) (st : PyDict × PyDict) (fp : String)
    (sc : ScanOutcome) (h : st.1.keys = st.2.keys) :
    (update_version_step bump st fp sc).1.keys =
      (update_version_step bump st fp sc).2.keys := by
  cases sc with
  | hashFail => exact h
  | hashed current_hash content update_ok updated_hash =>
      simp only [update_version_step]
      by_cases hmem : fp ∈ st.2.keys
      · rw [if_neg (not_not_intro hmem)]
        by_cases hne : st.2.val fp ≠ current_hash
        · rw [if_pos hne]
          cases update_ok
          · simpa [PyDict.insert, h] using
              (Finset.insert_eq_self.mpr hmem).symm
          · simp [PyDict.insert, h]
        · rw [if_neg hne]
          exact h
      · rw [if_pos hmem]
        simp [PyDict.insert, h]

lemma rebuildStep_keys (orig_modules : PyDict) (st : PyDict × PyDict)
    (filename : String) (oc : RebuildOutcome) (h : st.1.keys = st.2.keys) :
    (rebuildStep orig_modules st filename oc).1.keys =
      (rebuildStep orig_modules st filename oc).2.keys := by
  cases oc <;> simp [rebuildStep, PyDict.insert, h]

lemma foldl_keys_lockstep {α : Type}
    (step : PyDict × PyDict → α → PyDict × PyDict)
    (hstep : ∀ st a, st.1.keys = st.2.keys → (step st a).1.keys = (step st a).2.keys) :
    ∀ (xs : List α) (init : PyDict × PyDict), init.1.keys = init.2.keys →
      (xs.foldl step init).1.keys = (xs.foldl step init).2.keys := by
  intro xs
  induction xs with
  | nil => intro init h; exact h
  | cons x xs ih => intro init h; exact ih (step init x) (hstep init x h)

end MpyTools

/-- C3 counterexample: for a changed module whose in-file version update
fails, the update loop records the newly computed hash `hNew`, not the old
recorded hash `hOld`, refuting the claim that the old hash is left. -/
theorem claim_C3_counterexample :
    (MpyTools.update_version_step "minor"
        (⟨{"m.py"}, fun _ => "1.0.0"⟩, ⟨{"m.py"}, fun _ => "hOld"⟩) "m.py"
        (MpyTools.ScanOutcome.hashed "hNew" "" false "x")).2.val "m.py" = "hNew" ∧
    "hNew" ≠ "hOld" := by
  constructor
  · decide
  · decide

/-- C3 (amended): for a module whose hash changed but whose in-file version
update fails, the loop keeps the modules map (hence the old version)
unchanged and stores the newly computed content hash for that module. -/
theorem claim_C3_failed_update_keeps_version
    (mods sha : MpyTools.PyDict) (bump fp current_hash content updated_hash : String)
    (hmem : fp ∈ sha.keys) (hne : sha.val fp ≠ current_hash) :
    MpyTools.update_version_step bump (mods, sha) fp
        (MpyTools.ScanOutcome.hashed current_hash content false updated_hash)
      = (mods, sha.insert fp current_hash) ∧
    (MpyTools.update_version_step bump (mods, sha) fp
        (MpyTools.ScanOutcome.hashed current_hash content false updated_hash)).2.val fp
      = current_hash := by
  have hstep : MpyTools.update_version_step bump (mods, sha) fp
      (MpyTools.ScanOutcome.hashed current_hash content false updated_hash)
      = (mods, sha.insert fp current_hash) := by
    simp only [MpyTools.update_version_step]
    rw [if_neg (not_not_intro hmem), if_pos hne]
    rfl
  refine ⟨hstep, ?_⟩
  rw [hstep]
  simp [MpyTools.PyDict.insert]

/-- C3 witness: the amended behaviour at the counterexample's input. -/
theorem claim_C3_failed_update_keeps_version_witness :
    MpyTools.update_version_step "minor"
        (⟨{"m.py"}, fun _ => "1.0.0"⟩, ⟨{"m.py"}, fun _ => "hOld"⟩) "m.py"
        (MpyTools.ScanOutcome.hashed "hNew" "" false "x")
      = (⟨{"m.py"}, fun _ => "1.0.0"⟩,
         MpyTools.PyDict.insert ⟨{"m.py"}, fun _ => "hOld"⟩ "m.py" "hNew") ∧
    (MpyTools.update_version_step "minor"
        (⟨{"m.py"}, fun _ => "1.0.0"⟩, ⟨{"m.py"}, fun _ => "hOld"⟩) "m.py"
        (MpyTools.ScanOutcome.hashed "hNew" "" false "x")).2.val "m.py" = "hNew" :=
  claim_C3_failed_update_keeps_version
    ⟨{"m.py"}, fun _ => "1.0.0"⟩ ⟨{"m.py"}, fun _ => "hOld"⟩
    "minor" "m.py" "hNew" "" "x" (by decide) (by decide)

/-- C6: every manifest-producing or mutating operation keeps the key sets of
the modules map and the SHA-256 map identical: collecting module versions,
each step of the update loop (new file, changed file with or without a
successful in-file rewrite), and the output-side manifest rebuild. -/
theorem claim_C6_manifest_lockstep :
    (∀ (ml cl : List String) (resolve : String → MpyTools.CollectOutcome),
      (MpyTools.collect_module_versions ml cl resolve).1.keys =
        (MpyTools.collect_module_versions ml cl resolve).2.keys) ∧
    (∀ (bump : String) (files : List String) (scan : String → MpyTools.ScanOutcome)
        (init : MpyTools.PyDict × MpyTools.PyDict), init.1.keys = init.2.keys →
      (MpyTools.update_version_main_loop bump files scan init).1.keys =
        (MpyTools.update_version_main_loop bump files scan init).2.keys) ∧
    (∀ (orig : MpyTools.PyDict) (files : List String)
        (scan : String → MpyTools.RebuildOutcome),
      (MpyTools.create_device_version_json orig files scan).1.keys =
        (MpyTools.create_device_version_json orig files scan).2.keys) := by
  refine ⟨?_, ?_, ?_⟩
  · intro ml cl resolve
    exact MpyTools.foldl_keys_lockstep _
      (fun st a h => MpyTools.collectStep_keys st a (resolve a) h) (ml ++ cl) _ rfl
  · intro bump files scan init hinit
    exact MpyTools.foldl_keys_lockstep _
      (fun st a h => MpyTools.update_version_step_keys bump st a (scan a) h) files init hinit
  · intro orig files scan
    exact MpyTools.foldl_keys_lockstep _
      (fun st a h => MpyTools.rebuildStep_keys orig st a (scan a) h) files _ rfl

/-- C6 witness: the update loop preserves lockstep from a concrete
already-lockstep manifest. -/
theorem claim_C6_manifest_lockstep_witness :
    (MpyTools.update_version_main_loop "minor" ["m.py"]
        (fun _ => MpyTools.ScanOutcome.hashed "hNew" "" true "hUpd")
        (⟨{"m.py"}, fun _ => "1.0.0"⟩, ⟨{"m.py"}, fun _ => "hOld"⟩)).1.keys =
      (MpyTools.update_version_main_loop "minor" ["m.py"]
        (fun _ => MpyTools.ScanOutcome.hashed "hNew" "" true "hUpd")
        (⟨{"m.py"}, fun _ => "1.0.0"⟩, ⟨{"m.py"}, fun _ => "hOld"⟩)).2.keys :=
  claim_C6_manifest_lockstep.2.1 "minor" ["m.py"]
    (fun _ => MpyTools.ScanOutcome.hashed "hNew" "" true "hUpd")
    (⟨{"m.py"}, fun _ => "1.0.0"⟩, ⟨{"m.py"}, fun _ => "hOld"⟩) rfl

namespace MpyTools

/-! ### Dry-run gating (src/tools/prepare.py lines 127-411, src/deploy.py lines 224-306, 371-386)

Every mutating operation of the build and deploy pipelines is modelled
as a function from its inputs (including the externally determined
resolution and subprocess outcomes) to the list of mutating effects it
performs; each function reproduces the source's control flow, in which
the `dry_run` branch prints and returns before any mutation. The
device-directory chain issued by `_ensure_remote_dirs` is abstracted
into a single effect per file. -/

/-- Filesystem and device mutations performed by the pipelines. -/
inductive Effect
  | clearOutputDir
  | makeOutputDir
  | makeParentDirs (path : String)
  | copyFile (filename : String)
  | runCompiler (filename : String)
  | moveArtifact (filename : String)
  | writeManifest (path : String)
  | remoteRm (filename : String)
  | remoteMkdir (filename : String)
  | remoteCp (filename : String)
  | softReset

/-- A copy-only module together with the outcome of its source resolution. -/
structure CopyItem where
  filename : String
  found : Bool

/-- A compiled module together with its resolution outcome and whether the
external compiler produced the expected artifact. -/
structure CompileItem where
  filename : String
  found : Bool
  artifactProduced : Bool

/-- Effects of `create_version_json`: the dry-run branch returns before the
manifest write. -/
def create_version_json_effects (dry_run : Bool) (src_dir : String) : List Effect :=
  if dry_run then [] else [Effect.writeManifest (src_dir ++ "/version.json")]

/-- Effects of `create_device_src_dir`: the dry-run branch only prints; the
real branch clears an existing output directory and recreates it. -/
def create_device_src_dir_effects (dry_run dir_exists : Bool) : List Effect :=
  if dry_run then []
  else (if dir_exists then [Effect.clearOutputDir] else []) ++ [Effect.makeOutputDir]

/-- Effects of one iteration of `copy_only_files`: an unresolved file is
skipped; the parent-directory creation is guarded by
`preserve_dirs and not dry_run`; the copy itself only happens out of
dry-run mode. -/
def copy_only_file_effects (dry_run preserve_dirs : Bool) (it : CopyItem) : List Effect :=
  if !it.found then []
  else if dry_run then []
  else (if preserve_dirs then [Effect.makeParentDirs it.filename] else []) ++
       [Effect.copyFile it.filename]

/-- Effects of `compile_module`: an unresolved file is skipped; the dry-run
branch estimates sizes and returns; the real branch runs the compiler and,
when the artifact appeared, moves it into the output tree. -/
def compile_module_effects (dry_run preserve_dirs : Bool) (it : CompileItem) : List Effect :=
  if !it.found then []
  else if dry_run then []
  else Effect.runCompiler it.filename ::
       (if it.artifactProduced then
          (if preserve_dirs then [Effect.makeParentDirs it.filename] else []) ++
          [Effect.moveArtifact it.filename]
        else [])

/-- Effects of `create_device_version_json`: dry-run returns before reading;
the real branch writes the output manifest only when the source manifest
loaded. -/
def create_device_version_json_effects (dry_run src_manifest_ok : Bool)
    (out_dir : String) : List Effect :=
  if dry_run then []
  else if src_manifest_ok then [Effect.writeManifest (out_dir ++ "/version.json")] else []

/-- Whether `Path(filename).parent` is a real directory component, i.e. the
copy loop must ensure remote directories for it. -/
def hasParentDir (filename : String) : Bool := filename.data.contains '/'

/-- Effects of `remove_obsolete_files`: early return on an empty set, then
the dry-run branch, then one remote delete per file. -/
def remove_obsolete_files_effects (dry_run : Bool) (obsolete : List String) : List Effect :=
  if obsolete.isEmpty then []
  else if dry_run then []
  else obsolete.map Effect.remoteRm

/-- Effects of `copy_files`: early return on an empty set, then the dry-run
branch, then per file the remote directory chain (when needed) and the
remote copy. -/
def copy_files_effects (dry_run : Bool) (files : List String) : List Effect :=
  if files.isEmpty then []
  else if dry_run then []
  else files.foldr
    (fun f acc =>
      (if hasParentDir f then [Effect.remoteMkdir f] else []) ++ Effect.remoteCp f :: acc) []

/-- Effects of `soft_reset_device`. -/
def soft_reset_device_effects (dry_run : Bool) : List Effect :=
  if dry_run then [] else [Effect.softReset]

/-- Effects of a whole `main` run of the build pipeline
(src/tools/prepare.py lines 492-645), in execution order. Version
collection only reads files and contributes no mutation. -/
def prepare_run_effects (dry_run preserve_dirs dir_exists src_manifest_ok : Bool)
    (src_dir out_dir : String)
    (copy_items : List CopyItem) (compile_items : List CompileItem) : List Effect :=
  create_version_json_effects dry_run src_dir ++
  create_device_src_dir_effects dry_run dir_exists ++
  copy_items.foldr (fun it acc => copy_only_file_effects dry_run preserve_dirs it ++ acc) [] ++
  compile_items.foldr (fun it acc => compile_module_effects dry_run preserve_dirs it ++ acc) [] ++
  create_device_version_json_effects dry_run src_manifest_ok out_dir

/-- Effects of the mutating phase of `ESP32DeployTool.deploy`
(src/deploy.py lines 495-509), in execution order. -/
def deploy_run_effects (dry_run : Bool) (obsolete to_copy : List String) : List Effect :=
  remove_obsolete_files_effects dry_run obsolete ++
  copy_files_effects dry_run to_copy ++
  soft_reset_device_effects dry_run

lemma foldr_effects_nil {α : Type} (f : α → List Effect) (h : ∀ a, f a = []) :
    ∀ xs : List α, xs.foldr (fun a acc => f a ++ acc) [] = [] := by
  intro xs
  induction xs with
  | nil => rfl
  | cons x xs ih => simp [h x, ih]

lemma copy_only_file_effects_dry (preserve_dirs : Bool) (it : CopyItem) :
    copy_only_file_effects true preserve_dirs it = [] := by
  unfold copy_only_file_effects
  cases h : it.found <;> simp

lemma compile_module_effects_dry (preserve_dirs : Bool) (it : CompileItem) :
    compile_module_effects true preserve_dirs it = [] := by
  unfold compile_module_effects
  cases h : it.found <;> simp

end MpyTools

/-- C7: a dry-run invocation of the build pipeline and of the deploy pipeline
performs no mutation: no output-directory clear, create, copy, compiler run
or artifact move, no manifest write, no remote delete, directory creation or
transfer, and no soft reset; every mutating step is behind a no-op branch. -/
theorem claim_C7_dry_run_no_effects
    (preserve_dirs dir_exists src_manifest_ok : Bool) (src_dir out_dir : String)
    (copy_items : List MpyTools.CopyItem) (compile_items : List MpyTools.CompileItem)
    (obsolete to_copy : List String) :
    MpyTools.prepare_run_effects true preserve_dirs dir_exists src_manifest_ok
        src_dir out_dir copy_items compile_items = [] ∧
    MpyTools.deploy_run_effects true obsolete to_copy = [] := by
  constructor
  · unfold MpyTools.prepare_run_effects
    rw [MpyTools.foldr_effects_nil _ (MpyTools.copy_only_file_effects_dry preserve_dirs)
          copy_items,
        MpyTools.foldr_effects_nil _ (MpyTools.compile_module_effects_dry preserve_dirs)
          compile_items]
    simp [MpyTools.create_version_json_effects, MpyTools.create_device_src_dir_effects,
          MpyTools.create_device_version_json_effects]
  · unfold MpyTools.deploy_run_effects
    unfold MpyTools.remove_obsolete_files_effects MpyTools.copy_files_effects
      MpyTools.soft_reset_device_effects
    cases h1 : obsolete.isEmpty <;> cases h2 : to_copy.isEmpty <;> simp
